import Mathlib

set_option maxRecDepth 100000

/-!
Shallow embedding of `crewai/utilities/embedding_configurator.py`
(`EmbeddingConfigurator`): the provider registry, the `configure_embedder`
dispatcher, the default-from-environment path, the per-provider adapters and
their error behaviour.

External collaborators (the chromadb `EmbeddingFunction` base class, the
`validate_embedding_function` conformance check, the provider SDK client
constructors, and availability of the optional IBM Watson SDK) are modelled
as parameters collected in the `Externals` structure; the code of this
repository never looks inside them.
-/

namespace EmbCfg

/-- Opaque identity of an already-constructed chromadb `EmbeddingFunction`
object.  Only identity matters to the dispatcher (it passes such instances
through unchanged), so a bare tag suffices. -/
abbrev EmbInstance := Nat

/-- A Python value as far as the configurator inspects values: `None`,
strings, already-constructed `EmbeddingFunction` instances, and (possibly
nested) `dict` mappings represented as association lists. -/
inductive Value where
  | none
  | str (s : String)
  | inst (e : EmbInstance)
  | dict (d : List (String × Value))

/-- A Python `Dict[str, Any]` as used by the configurator. -/
abbrev Dict := List (String × Value)

/-- First binding of key `k`, if any (Python dict lookup; keys are unique in
a real dict, the association list keeps the first binding authoritative). -/
def dictFind (d : Dict) (k : String) : Option Value :=
  (d.find? (fun p => p.1 == k)).map (fun p => p.2)

/-- Python `d.get(k)`: the bound value, or `None` when the key is absent. -/
def dictGet (d : Dict) (k : String) : Value :=
  (dictFind d k).getD Value.none

/-- Python `d.get(k, dflt)`: the bound value (even if it is `None`), or
`dflt` only when the key is absent. -/
def dictGetD (d : Dict) (k : String) (dflt : Value) : Value :=
  (dictFind d k).getD dflt

/-- Python truthiness for the values the configurator tests with `not`. -/
def truthy : Value → Bool
  | Value.none => false
  | Value.str s => !(s.isEmpty)
  | Value.inst _ => true
  | Value.dict d => !(d.isEmpty)

/-- Python `a or b` (returns `a` when truthy, else `b`). -/
def pyOr (a b : Value) : Value :=
  if truthy a then a else b

/-- The process environment: `os.getenv` reads. -/
abbrev Env := String → Option String

/-- `os.getenv(k)` as a `Value`: the string, or `None` when unset. -/
def envValue (env : Env) (k : String) : Value :=
  match env k with
  | some s => Value.str s
  | Option.none => Value.none

/-- Single-quote character, used when rendering Python `str(list)` output. -/
def sq : String := String.singleton (Char.ofNat 39)

/-- Python `str()` of the provider value as interpolated into the
"Unsupported embedding provider" f-string.  `str(None) = "None"` and
`str` of a string is itself; the remaining cases (an `EmbeddingFunction`
instance, which the `isinstance` branch intercepts before the f-string can
see it, and a dict provider) are abstracted by fixed placeholder renderings,
since no dispatcher output examined here depends on their exact text. -/
def pyStr : Value → String
  | Value.none => "None"
  | Value.str s => s
  | Value.inst _ => "<EmbeddingFunction instance>"
  | Value.dict _ => "<dict>"

/-- A keyword-argument call to an external provider client constructor,
e.g. `OpenAIEmbeddingFunction(api_key=..., model_name=...)`. -/
structure CtorCall where
  name : String
  args : List (String × Value)

/-- Fixed parameters the inline embedding function of the Watson adapter passes
to the SDK `Embeddings` constructor at call time. -/
structure WatsonEmbedRequest where
  model_id : Value
  truncate_input_tokens : Nat
  return_options_input_text : Bool
  api_key : Value
  url : Value
  project_id : Value

/-- The embedding function produced by `configure_embedder`: either the
object built by an external provider client constructor (characterised by
its construction call), a pre-built instance passed through unchanged, or
the inline function of the Watson adapter closing over its config. -/
inductive EmbFun where
  | ext (call : CtorCall)
  | inst (e : EmbInstance)
  | watson (config : Dict)

/-- Python exceptions raised (directly or via external calls) on the paths
of the configurator, tagged by exception class, carrying `str(e)`. -/
inductive PyError where
  | exception (msg : String)
  | valueError (msg : String)
  | importError (msg : String)
  | attributeError (msg : String)

/-- `str(e)` of a raised error. -/
def pyErrMsg : PyError → String
  | PyError.exception m => m
  | PyError.valueError m => m
  | PyError.importError m => m
  | PyError.attributeError m => m

/-- Behaviour of the external collaborators, fixed for the duration of one
`configure_embedder` call:
`validate` is the chromadb `validate_embedding_function` (raises with a
message, or passes); `construct` is the outcome of an external provider
client constructor (raises, or succeeds); `watsonAvailable` says whether
the optional `ibm_watsonx_ai` SDK can be imported. -/
structure Externals where
  validate : EmbInstance → Except String Unit
  construct : CtorCall → Except PyError Unit
  watsonAvailable : Bool

/-- Run an external client constructor: on success the produced embedding
function is the object characterised by this construction call; any error
the constructor raises propagates unchanged (the source has no handler
around the adapters). -/
def runCtor (ext : Externals) (call : CtorCall) : Except PyError EmbFun :=
  match ext.construct call with
  | Except.ok _ => Except.ok (EmbFun.ext call)
  | Except.error e => Except.error e

/-- `_configure_openai`: `OpenAIEmbeddingFunction(api_key=config.get("api_key")
or os.getenv("OPENAI_API_KEY"), model_name=model_name)`. -/
def configure_openai (ext : Externals) (env : Env) (config : Dict) (model_name : Value) :
    Except PyError EmbFun :=
  runCtor ext
    { name := "OpenAIEmbeddingFunction",
      args := [("api_key", pyOr (dictGet config "api_key") (envValue env "OPENAI_API_KEY")),
               ("model_name", model_name)] }

/-- `_configure_azure`: `OpenAIEmbeddingFunction(api_key=..., api_base=...,
api_type=config.get("api_type", "azure"), api_version=..., model_name=...)`. -/
def configure_azure (ext : Externals) (_env : Env) (config : Dict) (model_name : Value) :
    Except PyError EmbFun :=
  runCtor ext
    { name := "OpenAIEmbeddingFunction",
      args := [("api_key", dictGet config "api_key"),
               ("api_base", dictGet config "api_base"),
               ("api_type", dictGetD config "api_type" (Value.str "azure")),
               ("api_version", dictGet config "api_version"),
               ("model_name", model_name)] }

/-- `_configure_ollama`: `OllamaEmbeddingFunction(url=config.get("url",
"http://localhost:11434/api/embeddings"), model_name=model_name)`. -/
def configure_ollama (ext : Externals) (_env : Env) (config : Dict) (model_name : Value) :
    Except PyError EmbFun :=
  runCtor ext
    { name := "OllamaEmbeddingFunction",
      args := [("url", dictGetD config "url" (Value.str "http://localhost:11434/api/embeddings")),
               ("model_name", model_name)] }

/-- `_configure_vertexai`: `GoogleVertexEmbeddingFunction(model_name=...,
api_key=config.get("api_key"))`. -/
def configure_vertexai (ext : Externals) (_env : Env) (config : Dict) (model_name : Value) :
    Except PyError EmbFun :=
  runCtor ext
    { name := "GoogleVertexEmbeddingFunction",
      args := [("model_name", model_name), ("api_key", dictGet config "api_key")] }

/-- `_configure_google`: `GoogleGenerativeAiEmbeddingFunction(model_name=...,
api_key=config.get("api_key"))`. -/
def configure_google (ext : Externals) (_env : Env) (config : Dict) (model_name : Value) :
    Except PyError EmbFun :=
  runCtor ext
    { name := "GoogleGenerativeAiEmbeddingFunction",
      args := [("model_name", model_name), ("api_key", dictGet config "api_key")] }

/-- `_configure_cohere`: `CohereEmbeddingFunction(model_name=...,
api_key=config.get("api_key"))`. -/
def configure_cohere (ext : Externals) (_env : Env) (config : Dict) (model_name : Value) :
    Except PyError EmbFun :=
  runCtor ext
    { name := "CohereEmbeddingFunction",
      args := [("model_name", model_name), ("api_key", dictGet config "api_key")] }

/-- `_configure_voyageai`: `VoyageAIEmbeddingFunction(model_name=...,
api_key=config.get("api_key"))`. -/
def configure_voyageai (ext : Externals) (_env : Env) (config : Dict) (model_name : Value) :
    Except PyError EmbFun :=
  runCtor ext
    { name := "VoyageAIEmbeddingFunction",
      args := [("model_name", model_name), ("api_key", dictGet config "api_key")] }

/-- `_configure_bedrock`: `AmazonBedrockEmbeddingFunction(session=
config.get("session"))`. -/
def configure_bedrock (ext : Externals) (_env : Env) (config : Dict) (_model_name : Value) :
    Except PyError EmbFun :=
  runCtor ext
    { name := "AmazonBedrockEmbeddingFunction",
      args := [("session", dictGet config "session")] }

/-- `_configure_huggingface`: `HuggingFaceEmbeddingServer(url=
config.get("api_url"))`. -/
def configure_huggingface (ext : Externals) (_env : Env) (config : Dict) (_model_name : Value) :
    Except PyError EmbFun :=
  runCtor ext
    { name := "HuggingFaceEmbeddingServer",
      args := [("url", dictGet config "api_url")] }

/-- Message of the `ImportError` raised when the Watson SDK is missing. -/
def watsonMissingMsg : String :=
  "IBM Watson dependencies are not installed. Please install them to use Watson embedding."

/-- `_configure_watson`: the `try: import ibm_watsonx_ai ...` block raises an
`ImportError` when the SDK is absent; otherwise the adapter returns the
inline `WatsonEmbeddingFunction()` closing over `config`. -/
def configure_watson (ext : Externals) (_env : Env) (config : Dict) (_model_name : Value) :
    Except PyError EmbFun :=
  if ext.watsonAvailable then
    Except.ok (EmbFun.watson config)
  else
    Except.error (PyError.importError watsonMissingMsg)

/-- `_configure_custom`: `embedder = config.get("embedder")`; `if not embedder
or not isinstance(embedder, EmbeddingFunction)` raise `ValueError`; else
validate and return it, wrapping a validation failure in `ValueError`.
(An `EmbeddingFunction` instance is always truthy in Python — the class
defines no `__bool__`/`__len__` — so the guard reduces to the
`isinstance` test.) -/
def configure_custom (ext : Externals) (_env : Env) (config : Dict) (_model_name : Value) :
    Except PyError EmbFun :=
  match dictGet config "embedder" with
  | Value.inst e =>
    match ext.validate e with
    | Except.ok _ => Except.ok (EmbFun.inst e)
    | Except.error m =>
      Except.error (PyError.valueError ("Invalid custom embedding function: " ++ m))
  | _ => Except.error (PyError.valueError "Custom provider requires a valid EmbeddingFunction instance")

/-- Tag for one entry of `self.embedding_functions` (the bound-method values
of the registry dict are defunctionalised into tags; `applyAdapter` maps
each tag back to its adapter). -/
inductive ProviderTag where
  | openai | azure | ollama | vertexai | google | cohere | voyageai
  | bedrock | huggingface | watson | custom

/-- `self.embedding_functions`, in source order: provider identifier to
construction routine. -/
def embedding_functions : List (String × ProviderTag) :=
  [("openai", ProviderTag.openai),
   ("azure", ProviderTag.azure),
   ("ollama", ProviderTag.ollama),
   ("vertexai", ProviderTag.vertexai),
   ("google", ProviderTag.google),
   ("cohere", ProviderTag.cohere),
   ("voyageai", ProviderTag.voyageai),
   ("bedrock", ProviderTag.bedrock),
   ("huggingface", ProviderTag.huggingface),
   ("watson", ProviderTag.watson),
   ("custom", ProviderTag.custom)]

/-- The construction routine bound to a registry tag. -/
def applyAdapter : ProviderTag → Externals → Env → Dict → Value → Except PyError EmbFun
  | ProviderTag.openai => configure_openai
  | ProviderTag.azure => configure_azure
  | ProviderTag.ollama => configure_ollama
  | ProviderTag.vertexai => configure_vertexai
  | ProviderTag.google => configure_google
  | ProviderTag.cohere => configure_cohere
  | ProviderTag.voyageai => configure_voyageai
  | ProviderTag.bedrock => configure_bedrock
  | ProviderTag.huggingface => configure_huggingface
  | ProviderTag.watson => configure_watson
  | ProviderTag.custom => configure_custom

/-- The registry key set, `list(self.embedding_functions.keys())`. -/
def providerKeys : List String := embedding_functions.map (fun p => p.1)

/-- `provider in self.embedding_functions` resolved to the matching entry:
dict membership holds only for strings that are registry keys (for `None`,
an instance or a dict it is simply `False`). -/
def lookupRegistry : Value → Option ProviderTag
  | Value.str s => (embedding_functions.find? (fun p => p.1 == s)).map (fun p => p.2)
  | _ => Option.none

/-- Python `str(list(self.embedding_functions.keys()))`. -/
def keysRepr : String :=
  "[" ++ String.intercalate ", " (providerKeys.map (fun k => sq ++ k ++ sq)) ++ "]"

/-- The f-string of the `Unsupported embedding provider` exception. -/
def unsupportedMsg (provider : Value) : String :=
  "Unsupported embedding provider: " ++ pyStr provider ++ ", supported providers: " ++ keysRepr

/-- `configure_embedder` on a present (non-`None`) `embedder_config`:
lines 59-74 of the source.  `config.get("model")` is an attribute error
when the `config` entry is bound to a non-dict value, before any further
dispatch. -/
def configure_present (ext : Externals) (env : Env) (ec : Dict) : Except PyError EmbFun :=
  let provider := dictGet ec "provider"
  match dictGetD ec "config" (Value.dict []) with
  | Value.dict config =>
    let model_name := dictGet config "model"
    match provider with
    | Value.inst e =>
      match ext.validate e with
      | Except.ok _ => Except.ok (EmbFun.inst e)
      | Except.error m =>
        Except.error (PyError.valueError ("Invalid custom embedding function: " ++ m))
    | p =>
      match lookupRegistry p with
      | some t => applyAdapter t ext env config model_name
      | Option.none => Except.error (PyError.exception (unsupportedMsg p))
  | _ => Except.error (PyError.attributeError "object has no attribute get")

/-- The request `_create_default_embedding_function` synthesises from the
process environment (lines 88-92). -/
def default_request (env : Env) : Dict :=
  [("provider", Value.str ((env "CREWAI_EMBEDDING_PROVIDER").getD "openai")),
   ("config", Value.dict
      [("api_key", envValue env "OPENAI_API_KEY"),
       ("model", Value.str ((env "CREWAI_EMBEDDING_MODEL").getD "text-embedding-3-small"))])]

/-- `configure_embedder(embedder_config)`: the `None` case takes
`_create_default_embedding_function`, which recurses into
`configure_embedder` with the synthesised (non-`None`) request — hence
directly into `configure_present`. -/
def configure_embedder (ext : Externals) (env : Env) (embedder_config : Option Dict) :
    Except PyError EmbFun :=
  match embedder_config with
  | some ec => configure_present ext env ec
  | Option.none => configure_present ext env (default_request env)

/-- `WatsonEmbeddingFunction.__call__`: wraps a string input into a list,
builds the fixed embed parameters and credentials from the captured config,
then calls the SDK routine `embed_documents` (the `embed_documents` parameter,
returning embeddings of an abstract type `α`); a failure is printed
("Error during Watson embedding: ...", collected in the returned log) and
re-raised. -/
def watson_call {α : Type} (config : Dict) (input : String ⊕ List String)
    (embed_documents : WatsonEmbedRequest → List String → Except PyError α) :
    Except PyError α × List String :=
  let docs := match input with
    | Sum.inl s => [s]
    | Sum.inr l => l
  let req : WatsonEmbedRequest :=
    { model_id := dictGet config "model",
      truncate_input_tokens := 3,
      return_options_input_text := true,
      api_key := dictGet config "api_key",
      url := dictGet config "api_url",
      project_id := dictGet config "project_id" }
  match embed_documents req docs with
  | Except.ok embs => (Except.ok embs, [])
  | Except.error e =>
    (Except.error e, ["Error during Watson embedding: " ++ pyErrMsg e])

/-! ### State-passing rendering of the dispatcher

To settle the frame claim (the `embedder_config` mapping of the caller and its
nested `config` mapping are not mutated), the dispatcher and every adapter
are re-rendered with each Python dict method call given a state-passing
signature: a `.get` returns its result together with the dict it leaves
behind.  Mutation of the nested `config` dict would be visible through the
outer mapping, so the outer result writes the final nested state back into
the `config` binding when the caller supplied one. -/

/-- State-passing `d.get(k)`: the read leaves the dict unchanged. -/
def dget (d : Dict) (k : String) : Value × Dict := (dictGet d k, d)

/-- State-passing `d.get(k, dflt)`. -/
def dgetD (d : Dict) (k : String) (dflt : Value) : Value × Dict := (dictGetD d k dflt, d)

/-- Rebind the first occurrence of key `k` to `v`. -/
def replaceKey (d : Dict) (k : String) (v : Value) : Dict :=
  match d with
  | [] => []
  | (k1, v1) :: rest =>
    if k1 == k then (k1, v) :: rest else (k1, v1) :: replaceKey rest k v

/-- Reflect the final state of the nested `config` dict into the outer
mapping: when the mapping of the caller bound `config` to a dict, that dict was
aliased and its final state is written back; otherwise (absent key, so the
adapters worked on a fresh `{}`) the outer mapping is untouched. -/
def writeBackConfig (ec : Dict) (cfinal : Dict) : Dict :=
  match dictFind ec "config" with
  | some (Value.dict _) => replaceKey ec "config" (Value.dict cfinal)
  | _ => ec

/-- State-passing `_configure_openai`. -/
def configure_openai_st (ext : Externals) (env : Env) (config : Dict) (model_name : Value) :
    Except PyError EmbFun × Dict :=
  let (ak, c1) := dget config "api_key"
  (runCtor ext
    { name := "OpenAIEmbeddingFunction",
      args := [("api_key", pyOr ak (envValue env "OPENAI_API_KEY")),
               ("model_name", model_name)] }, c1)

/-- State-passing `_configure_azure`. -/
def configure_azure_st (ext : Externals) (_env : Env) (config : Dict) (model_name : Value) :
    Except PyError EmbFun × Dict :=
  let (ak, c1) := dget config "api_key"
  let (ab, c2) := dget c1 "api_base"
  let (at1, c3) := dgetD c2 "api_type" (Value.str "azure")
  let (av, c4) := dget c3 "api_version"
  (runCtor ext
    { name := "OpenAIEmbeddingFunction",
      args := [("api_key", ak), ("api_base", ab), ("api_type", at1),
               ("api_version", av), ("model_name", model_name)] }, c4)

/-- State-passing `_configure_ollama`. -/
def configure_ollama_st (ext : Externals) (_env : Env) (config : Dict) (model_name : Value) :
    Except PyError EmbFun × Dict :=
  let (u, c1) := dgetD config "url" (Value.str "http://localhost:11434/api/embeddings")
  (runCtor ext { name := "OllamaEmbeddingFunction",
                 args := [("url", u), ("model_name", model_name)] }, c1)

/-- State-passing `_configure_vertexai`. -/
def configure_vertexai_st (ext : Externals) (_env : Env) (config : Dict) (model_name : Value) :
    Except PyError EmbFun × Dict :=
  let (ak, c1) := dget config "api_key"
  (runCtor ext { name := "GoogleVertexEmbeddingFunction",
                 args := [("model_name", model_name), ("api_key", ak)] }, c1)

/-- State-passing `_configure_google`. -/
def configure_google_st (ext : Externals) (_env : Env) (config : Dict) (model_name : Value) :
    Except PyError EmbFun × Dict :=
  let (ak, c1) := dget config "api_key"
  (runCtor ext { name := "GoogleGenerativeAiEmbeddingFunction",
                 args := [("model_name", model_name), ("api_key", ak)] }, c1)

/-- State-passing `_configure_cohere`. -/
def configure_cohere_st (ext : Externals) (_env : Env) (config : Dict) (model_name : Value) :
    Except PyError EmbFun × Dict :=
  let (ak, c1) := dget config "api_key"
  (runCtor ext { name := "CohereEmbeddingFunction",
                 args := [("model_name", model_name), ("api_key", ak)] }, c1)

/-- State-passing `_configure_voyageai`. -/
def configure_voyageai_st (ext : Externals) (_env : Env) (config : Dict) (model_name : Value) :
    Except PyError EmbFun × Dict :=
  let (ak, c1) := dget config "api_key"
  (runCtor ext { name := "VoyageAIEmbeddingFunction",
                 args := [("model_name", model_name), ("api_key", ak)] }, c1)

/-- State-passing `_configure_bedrock`. -/
def configure_bedrock_st (ext : Externals) (_env : Env) (config : Dict) (_model_name : Value) :
    Except PyError EmbFun × Dict :=
  let (s, c1) := dget config "session"
  (runCtor ext { name := "AmazonBedrockEmbeddingFunction", args := [("session", s)] }, c1)

/-- State-passing `_configure_huggingface`. -/
def configure_huggingface_st (ext : Externals) (_env : Env) (config : Dict) (_model_name : Value) :
    Except PyError EmbFun × Dict :=
  let (u, c1) := dget config "api_url"
  (runCtor ext { name := "HuggingFaceEmbeddingServer", args := [("url", u)] }, c1)

/-- State-passing `_configure_watson` (the inline function captures the
config by reference; construction itself performs no dict operation). -/
def configure_watson_st (ext : Externals) (_env : Env) (config : Dict) (_model_name : Value) :
    Except PyError EmbFun × Dict :=
  (if ext.watsonAvailable then Except.ok (EmbFun.watson config)
   else Except.error (PyError.importError watsonMissingMsg), config)

/-- State-passing `_configure_custom`. -/
def configure_custom_st (ext : Externals) (_env : Env) (config : Dict) (_model_name : Value) :
    Except PyError EmbFun × Dict :=
  let (embedder, c1) := dget config "embedder"
  (match embedder with
   | Value.inst e =>
     match ext.validate e with
     | Except.ok _ => Except.ok (EmbFun.inst e)
     | Except.error m =>
       Except.error (PyError.valueError ("Invalid custom embedding function: " ++ m))
   | _ => Except.error
       (PyError.valueError "Custom provider requires a valid EmbeddingFunction instance"), c1)

/-- State-passing construction routine bound to a registry tag. -/
def applyAdapter_st : ProviderTag → Externals → Env → Dict → Value →
    Except PyError EmbFun × Dict
  | ProviderTag.openai => configure_openai_st
  | ProviderTag.azure => configure_azure_st
  | ProviderTag.ollama => configure_ollama_st
  | ProviderTag.vertexai => configure_vertexai_st
  | ProviderTag.google => configure_google_st
  | ProviderTag.cohere => configure_cohere_st
  | ProviderTag.voyageai => configure_voyageai_st
  | ProviderTag.bedrock => configure_bedrock_st
  | ProviderTag.huggingface => configure_huggingface_st
  | ProviderTag.watson => configure_watson_st
  | ProviderTag.custom => configure_custom_st

/-- State-passing `configure_embedder` on a present mapping: every dict
operation of lines 59-74 threads the state of the mapping it reads, and the
result pairs the answer of the dispatcher with the final state of the
mapping of the caller. -/
def configure_present_st (ext : Externals) (env : Env) (ec : Dict) :
    Except PyError EmbFun × Dict :=
  let (provider, ec1) := dget ec "provider"
  let (configv, ec2) := dgetD ec1 "config" (Value.dict [])
  match configv with
  | Value.dict config =>
    let (model_name, config1) := dget config "model"
    match provider with
    | Value.inst e =>
      (match ext.validate e with
       | Except.ok _ => Except.ok (EmbFun.inst e)
       | Except.error m =>
         Except.error (PyError.valueError ("Invalid custom embedding function: " ++ m)),
       writeBackConfig ec2 config1)
    | p =>
      match lookupRegistry p with
      | some t =>
        let (r, cfinal) := applyAdapter_st t ext env config1 model_name
        (r, writeBackConfig ec2 cfinal)
      | Option.none =>
        (Except.error (PyError.exception (unsupportedMsg p)), writeBackConfig ec2 config1)
  | _ => (Except.error (PyError.attributeError "object has no attribute get"), ec2)

/-! ### Auxiliary predicates and concrete fixtures -/

/-- `needle` occurs as a contiguous substring of `hay`. -/
def strContains (hay needle : String) : Prop := needle.data <:+: hay.data

/-- The registry identifiers whose adapter ends in a call to an external
provider client constructor (all but `watson`, whose adapter defines an
inline function, and `custom`, which passes a caller instance through). -/
def ctorProviders : List String :=
  ["openai", "azure", "ollama", "vertexai", "google", "cohere",
   "voyageai", "bedrock", "huggingface"]

/-- Externals where every collaborator succeeds and the Watson SDK is
importable. -/
def ext0 : Externals :=
  { validate := fun _ => Except.ok (),
    construct := fun _ => Except.ok (),
    watsonAvailable := true }

/-- Externals where the Watson SDK import fails. -/
def extNoWatson : Externals :=
  { validate := fun _ => Except.ok (),
    construct := fun _ => Except.ok (),
    watsonAvailable := false }

/-- Externals whose conformance check rejects every instance with the
diagnostic "shape mismatch". -/
def extReject : Externals :=
  { validate := fun _ => Except.error "shape mismatch",
    construct := fun _ => Except.ok (),
    watsonAvailable := true }

/-- Externals whose provider client constructors all raise an exception
with message "boom". -/
def extBoom : Externals :=
  { validate := fun _ => Except.ok (),
    construct := fun _ => Except.error (PyError.exception "boom"),
    watsonAvailable := true }

/-- An empty process environment. -/
def envEmpty : Env := fun _ => Option.none

/-- An environment selecting the cohere provider for the default path and
carrying an OpenAI API key. -/
def envCohere : Env := fun k =>
  if k = "CREWAI_EMBEDDING_PROVIDER" then some "cohere"
  else if k = "OPENAI_API_KEY" then some "sk-test"
  else Option.none

/-! ### Helper lemmas -/

/-- A string outside the registry key set has no registry entry. -/
theorem lookupRegistry_str_none {s : String} (hs : s ∉ providerKeys) :
    lookupRegistry (Value.str s) = Option.none := by
  have h : embedding_functions.find? (fun p => p.1 == s) = Option.none := by
    refine List.find?_eq_none.mpr ?_
    intro x hx hbe
    have hx1 : x.1 = s := by simpa using hbe
    exact hs (hx1 ▸ List.mem_map_of_mem (fun p => p.1) hx)
  simp [lookupRegistry, h]

/-- Rebinding a key to the value it already holds leaves the dict intact. -/
theorem replaceKey_self {d : Dict} {k : String} {v : Value}
    (h : dictFind d k = some v) : replaceKey d k v = d := by
  induction d with
  | nil => rfl
  | cons p rest ih =>
    obtain ⟨k1, v1⟩ := p
    by_cases hk : (k1 == k) = true
    · have hv : v1 = v := by
        simp [dictFind, List.find?, hk] at h
        exact h
      simp [replaceKey, hk, hv]
    · have h' : dictFind rest k = some v := by
        simpa [dictFind, List.find?, hk] using h
      simp [replaceKey, hk, ih h']

/-- Each state-passing adapter returns the answer of its pure counterpart and
leaves the config dict in its initial state. -/
theorem applyAdapter_st_eq (t : ProviderTag) (ext : Externals) (env : Env)
    (c : Dict) (m : Value) :
    applyAdapter_st t ext env c m = (applyAdapter t ext env c m, c) := by
  cases t <;> rfl

/-! ### Claims -/

/-- C1: calling `configure_embedder` with `embedder_config` absent is
equivalent to calling it with `{provider: CREWAI_EMBEDDING_PROVIDER or
"openai", config: {api_key: OPENAI_API_KEY, model: CREWAI_EMBEDDING_MODEL
or "text-embedding-3-small"}}`. -/
theorem claim_C1 (ext : Externals) (env : Env) :
    configure_embedder ext env Option.none =
      configure_embedder ext env (some
        [("provider", Value.str ((env "CREWAI_EMBEDDING_PROVIDER").getD "openai")),
         ("config", Value.dict
            [("api_key", envValue env "OPENAI_API_KEY"),
             ("model", Value.str
                ((env "CREWAI_EMBEDDING_MODEL").getD "text-embedding-3-small"))])]) :=
  rfl

/-- C2: for every string provider outside the fixed supported set (which is
exactly `openai, azure, ollama, vertexai, google, cohere, voyageai,
bedrock, huggingface, watson, custom`), `configure_embedder` raises the
unsupported-provider exception, whose text contains every supported
identifier, and returns no value. -/
theorem claim_C2 (ext : Externals) (env : Env) (s : String) (c : Dict)
    (hs : s ∉ providerKeys) :
    configure_present ext env [("provider", Value.str s), ("config", Value.dict c)] =
        Except.error (PyError.exception (unsupportedMsg (Value.str s))) ∧
      (∀ k ∈ providerKeys, strContains (unsupportedMsg (Value.str s)) k) ∧
      providerKeys = ["openai", "azure", "ollama", "vertexai", "google", "cohere",
        "voyageai", "bedrock", "huggingface", "watson", "custom"] := by
  refine ⟨?_, ?_, rfl⟩
  · have hl := lookupRegistry_str_none hs
    simp [configure_present, dictGetD, dictGet, dictFind, List.find?, hl]
  · intro k hk
    have hB : k.data <:+: (", supported providers: " ++ keysRepr).data := by
      fin_cases hk <;> decide
    have hmsg : unsupportedMsg (Value.str s) =
        ("Unsupported embedding provider: " ++ s) ++ (", supported providers: " ++ keysRepr) := by
      simp [unsupportedMsg, pyStr, String.append_assoc]
    rw [strContains, hmsg]
    exact hB.trans (List.suffix_append
      ("Unsupported embedding provider: " ++ s).data
      (", supported providers: " ++ keysRepr).data).isInfix

/-- Witness for C2 at the unsupported identifier "doesnotexist". -/
theorem claim_C2_wit :
    ("doesnotexist" ∉ providerKeys) ∧
      configure_present ext0 envEmpty
        [("provider", Value.str "doesnotexist"), ("config", Value.dict [])] =
        Except.error (PyError.exception (unsupportedMsg (Value.str "doesnotexist"))) :=
  ⟨by decide, (claim_C2 ext0 envEmpty "doesnotexist" [] (by decide)).1⟩

/-- C3: under `provider = "custom"`, a conformant `config.embedder`
instance is returned unchanged (identity-preserving pass-through); an
embedder that fails the conformance check raises the invalid-custom
`ValueError` carrying the validation diagnostic; and an absent (or
non-instance) embedder raises the invalid-custom `ValueError`, so no value
is returned in either failure case. -/
theorem claim_C3 (ext : Externals) (env : Env) (c : Dict) :
    (∀ e : EmbInstance, dictGet c "embedder" = Value.inst e →
      (ext.validate e = Except.ok () →
        configure_present ext env
            [("provider", Value.str "custom"), ("config", Value.dict c)] =
          Except.ok (EmbFun.inst e)) ∧
      (∀ m : String, ext.validate e = Except.error m →
        configure_present ext env
            [("provider", Value.str "custom"), ("config", Value.dict c)] =
          Except.error (PyError.valueError ("Invalid custom embedding function: " ++ m)))) ∧
    ((∀ e : EmbInstance, dictGet c "embedder" ≠ Value.inst e) →
      configure_present ext env
          [("provider", Value.str "custom"), ("config", Value.dict c)] =
        Except.error (PyError.valueError
          "Custom provider requires a valid EmbeddingFunction instance")) := by
  have hred : configure_present ext env
      [("provider", Value.str "custom"), ("config", Value.dict c)] =
      configure_custom ext env c (dictGet c "model") := rfl
  constructor
  · intro e he
    constructor
    · intro hv
      rw [hred]
      simp [configure_custom, he, hv]
    · intro m hv
      rw [hred]
      simp [configure_custom, he, hv]
  · intro hne
    rw [hred]
    unfold configure_custom
    cases hemb : dictGet c "embedder" with
    | inst e => exact absurd hemb (hne e)
    | none => rfl
    | str s => rfl
    | dict d => rfl

/-- Witness for C3: a conformant embedder instance (id 7) under
`provider = "custom"` is passed through unchanged. -/
theorem claim_C3_wit :
    configure_present ext0 envEmpty
        [("provider", Value.str "custom"),
         ("config", Value.dict [("embedder", Value.inst 7)])] =
      Except.ok (EmbFun.inst 7) :=
  ((claim_C3 ext0 envEmpty [("embedder", Value.inst 7)]).1 7 rfl).1 rfl

/-- C4: a provider that is an already-constructed `EmbeddingFunction`
instance is run through the conformance check: on success it is returned
unchanged; on failure the invalid-custom `ValueError` is raised, its
message containing the validation diagnostic, and no value is returned. -/
theorem claim_C4 (ext : Externals) (env : Env) (e : EmbInstance) (c : Dict) :
    (ext.validate e = Except.ok () →
      configure_present ext env
          [("provider", Value.inst e), ("config", Value.dict c)] =
        Except.ok (EmbFun.inst e)) ∧
    (∀ m : String, ext.validate e = Except.error m →
      configure_present ext env
          [("provider", Value.inst e), ("config", Value.dict c)] =
        Except.error (PyError.valueError ("Invalid custom embedding function: " ++ m)) ∧
      strContains ("Invalid custom embedding function: " ++ m) m) := by
  have hred : configure_present ext env
      [("provider", Value.inst e), ("config", Value.dict c)] =
      (match ext.validate e with
       | Except.ok _ => Except.ok (EmbFun.inst e)
       | Except.error m =>
         Except.error (PyError.valueError ("Invalid custom embedding function: " ++ m))) := rfl
  constructor
  · intro hv
    rw [hred, hv]
  · intro m hv
    rw [hred, hv]
    refine ⟨rfl, ?_⟩
    exact (List.suffix_append ("Invalid custom embedding function: ").data m.data).isInfix

/-- Witness for C4: a conformant instance (id 5) is returned unchanged; a
rejected instance raises the invalid-custom `ValueError` carrying the
diagnostic "shape mismatch" of the validator. -/
theorem claim_C4_wit :
    configure_present ext0 envEmpty
        [("provider", Value.inst 5), ("config", Value.dict [])] =
      Except.ok (EmbFun.inst 5) ∧
    configure_present extReject envEmpty
        [("provider", Value.inst 5), ("config", Value.dict [])] =
      Except.error (PyError.valueError
        ("Invalid custom embedding function: " ++ "shape mismatch")) :=
  ⟨(claim_C4 ext0 envEmpty 5 []).1 rfl,
   (((claim_C4 extReject envEmpty 5 []).2 "shape mismatch" rfl).1)⟩

/-- C5 counterexample: when the openai client constructor raises
`Exception("boom")`, `configure_embedder` surfaces exactly that bare
exception — the model of the source has no distinct
`ProviderConstructionFailed` wrapper for it to be wrapped in, so the
failure is re-raised bare, contradicting the words of the claim: "wrapped in the typed
failure, not re-raised bare". -/
theorem claim_C5_cex :
    configure_present extBoom envEmpty
        [("provider", Value.str "openai"), ("config", Value.dict [])] =
        Except.error (PyError.exception "boom") ∧
      pyErrMsg (PyError.exception "boom") = "boom" :=
  ⟨rfl, rfl⟩

/-- C5 (amended): for every provider whose adapter calls an external client
constructor, a construction failure propagates to the caller as the
original error, unchanged — neither swallowed nor wrapped in any distinct
typed failure. -/
theorem claim_C5 (env : Env) (validate0 : EmbInstance → Except String Unit)
    (wa : Bool) (err : PyError) (s : String) (hs : s ∈ ctorProviders) (c : Dict) :
    configure_present
        { validate := validate0, construct := fun _ => Except.error err,
          watsonAvailable := wa } env
        [("provider", Value.str s), ("config", Value.dict c)] =
      Except.error err := by
  fin_cases hs <;> rfl

/-- Witness for C5 at provider "openai". -/
theorem claim_C5_wit :
    ("openai" ∈ ctorProviders) ∧
      configure_present
          { validate := fun _ => Except.ok (),
            construct := fun _ => Except.error (PyError.exception "boom"),
            watsonAvailable := true } envEmpty
          [("provider", Value.str "openai"), ("config", Value.dict [])] =
        Except.error (PyError.exception "boom") :=
  ⟨by decide,
   claim_C5 envEmpty (fun _ => Except.ok ()) true (PyError.exception "boom")
     "openai" (by decide) []⟩

/-- C6: the dispatcher and every adapter perform only read operations on
the `embedder_config` mapping of the caller and its nested `config` mapping:
the state-passing rendering of `configure_embedder` returns the pure
answer of the pure dispatcher together with the mapping of the caller in its
initial state, whether the call returns an embedding function or raises. -/
theorem claim_C6 (ext : Externals) (env : Env) (ec : Dict) :
    configure_present_st ext env ec = (configure_present ext env ec, ec) := by
  unfold configure_present_st configure_present
  cases hcf : dictFind ec "config" with
  | none =>
    have hwb : ∀ cf, writeBackConfig ec cf = ec := by
      intro cf
      simp [writeBackConfig, hcf]
    simp only [dget, dgetD, dictGetD, hcf, Option.getD]
    cases hp : dictGet ec "provider" with
    | inst e => cases ext.validate e <;> simp [hwb]
    | none => cases hl : lookupRegistry Value.none <;>
        simp [hl, applyAdapter_st_eq, hwb]
    | str s => cases hl : lookupRegistry (Value.str s) <;>
        simp [hl, applyAdapter_st_eq, hwb]
    | dict d => cases hl : lookupRegistry (Value.dict d) <;>
        simp [hl, applyAdapter_st_eq, hwb]
  | some v =>
    cases v with
    | dict d =>
      have hwb : writeBackConfig ec d = ec := by
        simp [writeBackConfig, hcf, replaceKey_self hcf]
      simp only [dget, dgetD, dictGetD, hcf, Option.getD]
      cases hp : dictGet ec "provider" with
      | inst e => cases ext.validate e <;> simp [hwb]
      | none => cases hl : lookupRegistry Value.none <;>
          simp [hl, applyAdapter_st_eq, hwb]
      | str s => cases hl : lookupRegistry (Value.str s) <;>
          simp [hl, applyAdapter_st_eq, hwb]
      | dict d1 => cases hl : lookupRegistry (Value.dict d1) <;>
          simp [hl, applyAdapter_st_eq, hwb]
    | none => simp only [dget, dgetD, dictGetD, hcf, Option.getD]
    | str s => simp only [dget, dgetD, dictGetD, hcf, Option.getD]
    | inst e => simp only [dget, dgetD, dictGetD, hcf, Option.getD]

/-- C7: under `provider = "azure"` with no `api_type` key in the config,
the azure adapter invokes the underlying `OpenAIEmbeddingFunction`
constructor with `api_type = "azure"`, passing through `api_key`,
`api_base`, `api_version` and the model name from the config. -/
theorem claim_C7 (ext : Externals) (env : Env) (c : Dict)
    (h : dictFind c "api_type" = Option.none) :
    configure_present ext env
        [("provider", Value.str "azure"), ("config", Value.dict c)] =
      runCtor ext
        { name := "OpenAIEmbeddingFunction",
          args := [("api_key", dictGet c "api_key"),
                   ("api_base", dictGet c "api_base"),
                   ("api_type", Value.str "azure"),
                   ("api_version", dictGet c "api_version"),
                   ("model_name", dictGet c "model")] } := by
  have hred : configure_present ext env
      [("provider", Value.str "azure"), ("config", Value.dict c)] =
      configure_azure ext env c (dictGet c "model") := rfl
  rw [hred]
  simp [configure_azure, dictGetD, h]

/-- Witness for C7 at a config holding only an api_key. -/
theorem claim_C7_wit :
    configure_present ext0 envEmpty
        [("provider", Value.str "azure"),
         ("config", Value.dict [("api_key", Value.str "k")])] =
      runCtor ext0
        { name := "OpenAIEmbeddingFunction",
          args := [("api_key", Value.str "k"),
                   ("api_base", Value.none),
                   ("api_type", Value.str "azure"),
                   ("api_version", Value.none),
                   ("model_name", Value.none)] } :=
  claim_C7 ext0 envEmpty [("api_key", Value.str "k")] rfl

/-- C8: with the Watson SDK missing, `provider = "watson"` fails at
construction time with the dependency `ImportError` naming IBM Watson
(rather than deferring to the first embedding call); with the SDK present,
construction succeeds with the inline embedding function, whose
invocation-time failures are both logged ("Error during Watson embedding:
...") and re-raised unchanged. -/
theorem claim_C8 (ext : Externals) (env : Env) (c : Dict) :
    (ext.watsonAvailable = false →
      configure_present ext env
          [("provider", Value.str "watson"), ("config", Value.dict c)] =
        Except.error (PyError.importError watsonMissingMsg)) ∧
    strContains watsonMissingMsg "IBM Watson" ∧
    (ext.watsonAvailable = true →
      configure_present ext env
          [("provider", Value.str "watson"), ("config", Value.dict c)] =
        Except.ok (EmbFun.watson c)) ∧
    (∀ (α : Type) (err : PyError) (input : String ⊕ List String),
      @watson_call α c input (fun _ _ => Except.error err) =
        (Except.error err, ["Error during Watson embedding: " ++ pyErrMsg err])) := by
  have hred : configure_present ext env
      [("provider", Value.str "watson"), ("config", Value.dict c)] =
      configure_watson ext env c (dictGet c "model") := rfl
  refine ⟨?_, by unfold strContains; decide, ?_, ?_⟩
  · intro h
    rw [hred]
    simp [configure_watson, h]
  · intro h
    rw [hred]
    simp [configure_watson, h]
  · intro α err input
    cases input <;> rfl

/-- Witness for C8: a missing SDK raises the dependency `ImportError`; a
present SDK yields the inline Watson embedding function. -/
theorem claim_C8_wit :
    configure_present extNoWatson envEmpty
        [("provider", Value.str "watson"), ("config", Value.dict [])] =
        Except.error (PyError.importError watsonMissingMsg) ∧
      configure_present ext0 envEmpty
        [("provider", Value.str "watson"), ("config", Value.dict [])] =
        Except.ok (EmbFun.watson []) :=
  ⟨(claim_C8 extNoWatson envEmpty []).1 rfl,
   (claim_C8 ext0 envEmpty []).2.2.1 rfl⟩

/-- C9: the environment-default path always reads the api_key of the synthesized config
api_key from `OPENAI_API_KEY`, whatever `CREWAI_EMBEDDING_PROVIDER` holds;
in particular when that variable selects cohere or google, the selected
adapter receives the OpenAI key as its `api_key`. -/
theorem claim_C9 (ext : Externals) (env : Env) :
    dictGet (default_request env) "config" = Value.dict
        [("api_key", envValue env "OPENAI_API_KEY"),
         ("model", Value.str
            ((env "CREWAI_EMBEDDING_MODEL").getD "text-embedding-3-small"))] ∧
    (∀ k : String, env "CREWAI_EMBEDDING_PROVIDER" = some "cohere" →
      env "OPENAI_API_KEY" = some k →
      configure_embedder ext env Option.none =
        runCtor ext
          { name := "CohereEmbeddingFunction",
            args := [("model_name", Value.str
                        ((env "CREWAI_EMBEDDING_MODEL").getD "text-embedding-3-small")),
                     ("api_key", Value.str k)] }) ∧
    (∀ k : String, env "CREWAI_EMBEDDING_PROVIDER" = some "google" →
      env "OPENAI_API_KEY" = some k →
      configure_embedder ext env Option.none =
        runCtor ext
          { name := "GoogleGenerativeAiEmbeddingFunction",
            args := [("model_name", Value.str
                        ((env "CREWAI_EMBEDDING_MODEL").getD "text-embedding-3-small")),
                     ("api_key", Value.str k)] }) := by
  refine ⟨rfl, ?_, ?_⟩
  all_goals
    intro k hp hk
    simp [configure_embedder, default_request, hp, configure_present, dictGetD,
      dictGet, dictFind, List.find?, lookupRegistry, embedding_functions,
      applyAdapter, configure_cohere, configure_google, envValue, hk]

/-- Witness for C9: `CREWAI_EMBEDDING_PROVIDER=cohere` with
`OPENAI_API_KEY=sk-test` hands the OpenAI key to the cohere adapter. -/
theorem claim_C9_wit :
    configure_embedder ext0 envCohere Option.none =
      runCtor ext0
        { name := "CohereEmbeddingFunction",
          args := [("model_name", Value.str "text-embedding-3-small"),
                   ("api_key", Value.str "sk-test")] } :=
  (claim_C9 ext0 envCohere).2.1 "sk-test" rfl rfl

/-- C10: a present mapping lacking a "provider" key does not take the
environment-default path: the provider reads as `None`, which is not a
registry key, so the call raises the unsupported-provider exception (whose
text names provider `None`). -/
theorem claim_C10 (ext : Externals) (env : Env) (ec : Dict)
    (hp : dictFind ec "provider" = Option.none)
    (hc : ∀ v, dictFind ec "config" = some v → ∃ d, v = Value.dict d) :
    configure_present ext env ec =
      Except.error (PyError.exception
        ("Unsupported embedding provider: None, supported providers: " ++ keysRepr)) := by
  have hget : dictGet ec "provider" = Value.none := by simp [dictGet, hp]
  cases hcf : dictFind ec "config" with
  | none =>
    simp [configure_present, dictGetD, hcf, hget, lookupRegistry, unsupportedMsg, pyStr]
  | some v =>
    obtain ⟨d, rfl⟩ := hc v hcf
    simp [configure_present, dictGetD, hcf, hget, lookupRegistry, unsupportedMsg, pyStr]

/-- Witness for C10 at the empty mapping. -/
theorem claim_C10_wit :
    configure_present ext0 envEmpty [] =
      Except.error (PyError.exception
        ("Unsupported embedding provider: None, supported providers: " ++ keysRepr)) :=
  claim_C10 ext0 envEmpty [] rfl (fun _v h => nomatch h)

end EmbCfg
